import Mathlib

/-!
Shallow embedding of the BM-IoT dashboard frontend core: the data store
(src/frontend/js/store.js), the threshold classifier (src/frontend/js/api.js),
the dashboard controller staleness sweep, and the sensor-history chart
throttling (src/frontend/js/view-controllers.js), together with theorems
settling the specification claims about them.
-/

/-- JavaScript number semantics relevant to this code base: a finite value
(modelled as a rational), the two infinities, or NaN. -/
inductive JSNum where
  | finite (q : ℚ)
  | posInf
  | negInf
  | nan
deriving DecidableEq, Repr

/-- True exactly on finite JavaScript numbers. -/
def JSNum.isFiniteB : JSNum → Bool
  | .finite _ => true
  | _ => false

/-- The JavaScript isNaN test on a value that is already a number. -/
def JSNum.isNaNb : JSNum → Bool
  | .nan => true
  | _ => false

/-- JavaScript comparison a <= b on numbers; any comparison with NaN is false. -/
def jsLe : JSNum → JSNum → Bool
  | .nan, _ => false
  | _, .nan => false
  | .negInf, _ => true
  | _, .posInf => true
  | .posInf, _ => false
  | .finite x, .finite y => decide (x ≤ y)
  | .finite _, .negInf => false

/-- JavaScript comparison a >= b on numbers. -/
def jsGe (a b : JSNum) : Bool := jsLe b a

/-- Decimal digit test. -/
def isDigitC (c : Char) : Bool := 48 ≤ c.toNat && c.toNat ≤ 57

/-- Whitespace skipped by the JavaScript parseFloat builtin. -/
def isSpaceC (c : Char) : Bool :=
  c = ' ' || c = '\t' || c = '\n' || c = '\r'

/-- Numeric value of a list of decimal digit characters. -/
def natOfDigits (ds : List Char) : Nat :=
  ds.foldl (fun a c => 10 * a + (c.toNat - 48)) 0

/-- Model of the JavaScript builtin parseFloat: skip leading whitespace, an
optional sign, then either the literal word Infinity or the longest valid
decimal literal prefix (digits, optional fraction, optional exponent);
NaN when no valid prefix exists. -/
def jsParseFloat (s : String) : JSNum :=
  let cs := s.toList.dropWhile isSpaceC
  let signAndRest : Int × List Char :=
    match cs with
    | '-' :: rest => (-1, rest)
    | '+' :: rest => (1, rest)
    | _ => (1, cs)
  let sign := signAndRest.1
  let cs1 := signAndRest.2
  match cs1 with
  | 'I' :: 'n' :: 'f' :: 'i' :: 'n' :: 'i' :: 't' :: 'y' :: _ =>
      if sign = -1 then JSNum.negInf else JSNum.posInf
  | _ =>
    let intPart := cs1.span isDigitC
    let fracPart : List Char × List Char :=
      match intPart.2 with
      | '.' :: rest => rest.span isDigitC
      | _ => ([], intPart.2)
    if intPart.1 = [] ∧ fracPart.1 = [] then JSNum.nan
    else
      let mantissa : ℚ :=
        (natOfDigits intPart.1 : ℚ) +
          (natOfDigits fracPart.1 : ℚ) / ((10 : ℚ) ^ fracPart.1.length)
      let expo : Int :=
        match fracPart.2 with
        | c :: rest =>
          if c = 'e' ∨ c = 'E' then
            let esignAndRest : Int × List Char :=
              match rest with
              | '-' :: r => (-1, r)
              | '+' :: r => (1, r)
              | _ => (1, rest)
            let expDigits := esignAndRest.2.span isDigitC
            if expDigits.1 = [] then 0
            else esignAndRest.1 * (natOfDigits expDigits.1 : Int)
          else 0
        | [] => 0
      JSNum.finite ((sign : ℚ) * mantissa * (10 : ℚ) ^ expo)

/-- A raw value arriving at DataStore.updateSensorData: null, undefined, a
string, a number, or some other non-numeric object (modelled by a boolean,
which JavaScript typeof distinguishes from string and number). -/
inductive RawValue where
  | nullV
  | undefinedV
  | str (s : String)
  | num (x : JSNum)
  | boolV (b : Bool)
deriving DecidableEq, Repr

/-- The value validation block of DataStore.updateSensorData
(store.js lines 84 to 98): null and undefined become null; strings are run
through parseFloat, an unparsable string becomes null; a number that is not
NaN is kept as is; every other value becomes null. -/
def sanitizeValue (value : RawValue) : Option JSNum :=
  match value with
  | .nullV => none
  | .undefinedV => none
  | .str s =>
      let parsed := jsParseFloat s
      if parsed.isNaNb then none else some parsed
  | .num x => if x.isNaNb = false then some x else none
  | .boolV _ => none

/-- A pair of per-type threshold range lists, each range a closed interval
given by its two endpoints, from API.getSensorStatus (api.js lines 154 to 159).
The source stores each list as a flat array read two entries at a time. -/
structure Thresholds where
  critical : List (JSNum × JSNum)
  warning : List (JSNum × JSNum)
deriving DecidableEq, Repr

/-- The threshold table of API.getSensorStatus (api.js lines 155 to 159). -/
def thresholdsFor (sensorType : String) : Option Thresholds :=
  if sensorType = "humidity" then
    some ⟨[(.finite 0, .finite 20), (.finite 80, .finite 100)],
          [(.finite 20, .finite 30), (.finite 70, .finite 80)]⟩
  else if sensorType = "vibration" then
    some ⟨[(.finite 50, .posInf)], [(.finite 20, .finite 50)]⟩
  else if sensorType = "stress" then
    some ⟨[(.finite 80, .posInf)], [(.finite 60, .finite 80)]⟩
  else none

/-- The range scan loops of API.getSensorStatus (api.js lines 165 to 180):
value >= min and value <= max for some range in the list. -/
def inRanges (value : JSNum) (ranges : List (JSNum × JSNum)) : Bool :=
  ranges.any (fun r => jsGe value r.1 && jsLe value r.2)

/-- API.getSensorStatus (api.js lines 153 to 183): type absent from the
table gives normal; otherwise critical ranges are scanned first, then
warning ranges, else normal. -/
def getSensorStatus (value : JSNum) (sensorType : String) : String :=
  match thresholdsFor sensorType with
  | none => "normal"
  | some th =>
    if inRanges value th.critical then "critical"
    else if inRanges value th.warning then "warning"
    else "normal"

/-- One entry of a sensor's readings history (store.js line 106). -/
structure Reading where
  value : JSNum
  timestamp : Int
deriving DecidableEq, Repr

/-- A sensor record held by the DataStore (store.js lines 40 to 48):
timestamps are epoch milliseconds, the getTime value of the stored Date. -/
structure Sensor where
  id : String
  type : String
  location : String
  status : String
  lastValue : Option JSNum
  lastUpdate : Option Int
  readings : List Reading
deriving DecidableEq, Repr

/-- DataStore._calculateSensorStatus (store.js lines 116 to 127), with the
wall clock passed explicitly: no lastUpdate gives offline; an update older
than 300000 ms gives offline; otherwise a present lastValue is classified
by API.getSensorStatus and an absent lastValue gives active. -/
def calculateSensorStatus (now : Int) (sensor : Sensor) : String :=
  match sensor.lastUpdate with
  | none => "offline"
  | some t =>
    if now - t > 300000 then "offline"
    else
      match sensor.lastValue with
      | some v => getSensorStatus v sensor.type
      | none => "active"

/-- JavaScript Array.slice(-n): the last n elements of the list
(all of it when it is shorter than n). -/
def jsSliceLast (n : Nat) (l : List α) : List α := l.drop (l.length - n)

/-- The sensor-record part of DataStore.updateSensorData
(store.js lines 84 to 110): sanitize the value, set lastValue and
lastUpdate, recompute status, append an accepted reading, and truncate the
readings history to its last 100 entries when it exceeds 100. -/
def applySensorReading (now : Int) (sensor : Sensor) (value : RawValue)
    (timestamp : Int) : Sensor :=
  let sanitized := sanitizeValue value
  let s1 : Sensor := { sensor with lastValue := sanitized, lastUpdate := some timestamp }
  let s2 : Sensor := { s1 with status := calculateSensorStatus now s1 }
  let r1 : List Reading :=
    match sanitized with
    | some v => s2.readings ++ [⟨v, timestamp⟩]
    | none => s2.readings
  let r2 : List Reading := if r1.length > 100 then jsSliceLast 100 r1 else r1
  { s2 with readings := r2 }

/-- Lookup in an insertion-ordered map, as a JavaScript Map.get. -/
def mapGet (k : String) : List (String × α) → Option α
  | [] => none
  | (k2, v) :: rest => if k2 = k then some v else mapGet k rest

/-- Update in an insertion-ordered map, as a JavaScript Map.set: replace the
entry in place when the key is present, append it otherwise. -/
def mapSet (k : String) (v : α) : List (String × α) → List (String × α)
  | [] => [(k, v)]
  | (k2, v2) :: rest =>
      if k2 = k then (k, v) :: rest else (k2, v2) :: mapSet k v rest

/-- An alarm record of the DataStore (store.js alarm management). -/
structure Alarm where
  id : String
  sensorId : String
  level : String
  message : String
  timestamp : Int
  acknowledged : Bool
deriving DecidableEq, Repr

/-- The notification categories a DataStore mutation can emit
(the keys passed to DataStore._notify). -/
inductive NotifyKey where
  | sensors
  | sensorUpdated
  | sensorData (sensorId : String)
  | newAlarm
  | alarms
  | systemStats
  | connectionStatus
deriving DecidableEq, Repr

/-- The state owned by the DataStore (store.js lines 4 to 9). -/
structure StoreState where
  sensors : List (String × Sensor)
  alarms : List Alarm
  systemStats : List (String × JSNum)
  connectionStatus : String
deriving DecidableEq, Repr

/-- DataStore.updateSensorData (store.js lines 80 to 114) on the whole store
state, paired with the notifications it emits: an unknown sensor id returns
immediately, otherwise the sensor record is updated and sensorData followed
by sensors is notified. -/
def updateSensorData (now : Int) (st : StoreState) (sensorId : String)
    (value : RawValue) (timestamp : Int) : StoreState × List NotifyKey :=
  match mapGet sensorId st.sensors with
  | none => (st, [])
  | some sensor =>
    let s2 := applySensorReading now sensor value timestamp
    ({ st with sensors := mapSet sensorId s2 st.sensors },
     [.sensorData sensorId, .sensors])

/-- DataStore.addAlarm (store.js lines 137 to 144): prepend, truncate to the
first 1000 when the list exceeds 1000, and notify newAlarm then alarms. -/
def addAlarm (st : StoreState) (alarm : Alarm) : StoreState × List NotifyKey :=
  let l1 := alarm :: st.alarms
  let l2 := if l1.length > 1000 then l1.take 1000 else l1
  ({ st with alarms := l2 }, [.newAlarm, .alarms])

/-- A sequence of DataStore.addAlarm calls, in order. -/
def addAlarms (st : StoreState) (as : List Alarm) : StoreState :=
  as.foldl (fun s a => (addAlarm s a).1) st

/-- The in-place flag write of DataStore.acknowledgeAlarm: set acknowledged
on the first alarm whose id matches, leave the rest untouched. -/
def ackList (alarmId : String) : List Alarm → List Alarm
  | [] => []
  | a :: rest =>
      if a.id = alarmId then { a with acknowledged := true } :: rest
      else a :: ackList alarmId rest

/-- Whether some alarm in the list carries the given id
(the find test of DataStore.acknowledgeAlarm). -/
def hasAlarm (alarmId : String) (l : List Alarm) : Bool :=
  l.any (fun a => a.id = alarmId)

/-- DataStore.acknowledgeAlarm (store.js lines 146 to 152): find the alarm
by id; when present set its flag and notify alarms, otherwise do nothing. -/
def acknowledgeAlarm (st : StoreState) (alarmId : String) :
    StoreState × List NotifyKey :=
  if hasAlarm alarmId st.alarms then
    ({ st with alarms := ackList alarmId st.alarms }, [.alarms])
  else (st, [])

/-- A sequence of DataStore.updateSensorData calls for one sensor, applied
to that sensor's record in order. -/
def applySensorReadings (now : Int) (sensor : Sensor)
    (calls : List (RawValue × Int)) : Sensor :=
  calls.foldl (fun s c => applySensorReading now s c.1 c.2) sensor

/-- The accepted (sanitized-present) readings of a call sequence, in call
order, as the entries DataStore.updateSensorData appends. -/
def acceptedEntries (calls : List (RawValue × Int)) : List Reading :=
  calls.filterMap (fun c => (sanitizeValue c.1).map (fun v => ⟨v, c.2⟩))

/-- A device record of the legacy DashboardController (the unnamed dashboard
controller source, loadSystemData): the fields its staleness sweep reads. -/
structure Device where
  id : String
  subtype : String
  status : String
  lastValue : Option JSNum
  lastUpdate : Option Int
deriving DecidableEq, Repr

/-- The per-device body of DashboardController.startPeriodicUpdates
(the unnamed dashboard controller source, lines 237 to 254): when a device
has a lastUpdate older than 300000 ms and is not already offline, its status
is set to offline; otherwise it is left unchanged. -/
def sweepDevice (now : Int) (d : Device) : Device :=
  match d.lastUpdate with
  | some t =>
      if now - t > 300000 ∧ d.status ≠ "offline" then
        { d with status := "offline" }
      else d
  | none => d

/-- One firing of the DashboardController periodic interval over the
controller's own device list. -/
def startPeriodicUpdatesTick (now : Int) (devices : List Device) : List Device :=
  devices.map (sweepDevice now)

/-- The store together with the dashboard controller's private device list. -/
structure SystemState where
  store : StoreState
  dashDevices : List Device
deriving DecidableEq, Repr

/-- The combined effect of every periodic timer in the source on this state:
the 5 s dashboard.js interval and the 1 s clock interval only touch the DOM,
and the legacy controller interval runs startPeriodicUpdatesTick on the
controller's own device list. No timer mutates the store or calls
DataStore._notify, so the store component is returned unchanged and the
emitted store notification list is empty. -/
def periodicTick (now : Int) (sys : SystemState) : SystemState × List NotifyKey :=
  (⟨sys.store, startPeriodicUpdatesTick now sys.dashDevices⟩, [])

/-- One callback invocation inside DataStore._notify, with its try block
(store.js lines 27 to 31): a thrown error is caught and logged, surfacing
here as the returned error message. -/
def invokeCaught {α : Type} (cb : α → Except String Unit) (d : α) : Option String :=
  match cb d with
  | .ok _ => none
  | .error e => some e

/-- The forEach loop of DataStore._notify (store.js lines 26 to 32): invoke
each registered callback in insertion order, continuing past a caught
error, and collect each invocation's outcome. -/
def notifyGo {α : Type} (cbs : List (α → Except String Unit)) (d : α) : List (Option String) :=
  match cbs with
  | [] => []
  | cb :: rest => invokeCaught cb d :: notifyGo rest d

/-- The listener bookkeeping of the DataStore (store.js line 10): callbacks
per category, in insertion order as a JavaScript Set iterates. -/
structure ListenerMap (α : Type) where
  listeners : List (String × List (α → Except String Unit))

/-- DataStore._notify (store.js lines 24 to 34): look up the category and
run the callback loop; the listener bookkeeping itself is only read. -/
def notifyStore {α : Type} (lm : ListenerMap α) (key : String) (d : α) :
    ListenerMap α × List (Option String) :=
  match mapGet key lm.listeners with
  | none => (lm, [])
  | some cbs => (lm, notifyGo cbs d)

/-- One point of a chart dataset (view-controllers.js line 412): x is the
epoch-millisecond time, y the plotted value. -/
structure ChartPoint where
  x : Int
  y : JSNum
deriving DecidableEq, Repr

/-- A chart dataset of the sensor-history view, keyed by its label
(view-controllers.js lines 400 to 407). -/
structure Dataset where
  label : String
  data : List ChartPoint
deriving DecidableEq, Repr

/-- The SensorHistoryController state read and written by
handleSensorUpdate: its device list (sensor id to sensor type), the per-type
chart datasets, and the per-sensor throttle map. -/
structure HistoryController where
  devices : List (String × String)
  charts : List (String × List Dataset)
  updateThrottle : List (String × Int)
deriving DecidableEq, Repr

/-- The throttle delay of the SensorHistoryController constructor
(view-controllers.js line 173). -/
def throttleDelay : Int := 1000

/-- A sensor_update push event as handleSensorUpdate receives it: the value
may sit on the event directly or nested under data. -/
structure UpdateEvent where
  sensor_id : String
  timestamp : Int
  value : Option JSNum
  dataValue : Option JSNum
deriving DecidableEq, Repr

/-- JavaScript truthiness of a possibly absent number:
undefined, 0 and NaN are falsy. -/
def jsTruthy : Option JSNum → Bool
  | none => false
  | some (.finite q) => decide (q ≠ 0)
  | some .nan => false
  | some _ => true

/-- The y value of the new chart point (view-controllers.js line 414):
data.value, else data.data value, else 0, by JavaScript short-circuit or. -/
def eventY (e : UpdateEvent) : JSNum :=
  if jsTruthy e.value then e.value.getD (.finite 0)
  else if jsTruthy e.dataValue then e.dataValue.getD (.finite 0)
  else .finite 0

/-- The dataset lookup of handleSensorUpdate (view-controllers.js line 396):
first dataset whose label equals the sensor id. -/
def findDataset (lbl : String) : List Dataset → Option Dataset
  | [] => none
  | d :: rest => if d.label = lbl then some d else findDataset lbl rest

/-- In-place replacement of the first dataset with the given label, as the
source mutates the found dataset object. -/
def setDataset (lbl : String) (nd : Dataset) : List Dataset → List Dataset
  | [] => []
  | d :: rest => if d.label = lbl then nd :: rest else d :: setDataset lbl nd rest

/-- The sort call of handleSensorUpdate (view-controllers.js line 425):
stable sort of the points ascending by x. -/
def sortByX (l : List ChartPoint) : List ChartPoint :=
  l.mergeSort (fun a b => decide (a.x ≤ b.x))

/-- The push-and-truncate step of handleSensorUpdate (view-controllers.js
lines 417 to 422): after the push, slice to the last 1000 when over 1000. -/
def truncTo1000 (l : List ChartPoint) : List ChartPoint :=
  if l.length > 1000 then jsSliceLast 1000 l else l

/-- SensorHistoryController.handleSensorUpdate (view-controllers.js lines
363 to 430), with the DOM reads passed explicitly: the device-selector
filter, the view-hidden test, the per-sensor throttle gate (which records
the applied time before the device lookup), then lazily create the dataset,
push the new point, truncate, and sort. -/
def handleSensorUpdate (ctrl : HistoryController) (e : UpdateEvent) (now : Int)
    (selectedDevices : List String) (viewHidden : Bool) : HistoryController :=
  let shouldUpdate := selectedDevices.isEmpty || selectedDevices.contains e.sensor_id
  if !shouldUpdate then ctrl
  else if viewHidden then ctrl
  else
    let lastUpdate := (mapGet e.sensor_id ctrl.updateThrottle).getD 0
    if now - lastUpdate < throttleDelay then ctrl
    else
      let ctrl1 : HistoryController :=
        { ctrl with updateThrottle := mapSet e.sensor_id now ctrl.updateThrottle }
      match mapGet e.sensor_id ctrl1.devices with
      | none => ctrl1
      | some sensorType =>
        match mapGet sensorType ctrl1.charts with
        | none => ctrl1
        | some datasets =>
          let newPoint : ChartPoint := ⟨e.timestamp, eventY e⟩
          match findDataset e.sensor_id datasets with
          | some ds =>
            let d3 := sortByX (truncTo1000 (ds.data ++ [newPoint]))
            let charts2 :=
              mapSet sensorType
                (setDataset e.sensor_id ⟨ds.label, d3⟩ datasets) ctrl1.charts
            { ctrl1 with charts := charts2 }
          | none =>
            let d3 := sortByX (truncTo1000 [newPoint])
            let charts2 :=
              mapSet sensorType (datasets ++ [⟨e.sensor_id, d3⟩]) ctrl1.charts
            { ctrl1 with charts := charts2 }

/-- The raw value the store wiring passes to updateSensorData on a
sensor_update event: data.data value, else data.value, by JavaScript
short-circuit or (the simplified app controller source, line 92). -/
def storeRawValue (e : UpdateEvent) : RawValue :=
  if jsTruthy e.dataValue then .num (e.dataValue.getD (.finite 0))
  else
    match e.value with
    | some v => .num v
    | none => .undefinedV

/-- One sensor_update event processed by both independent subscribers of the
push feed: the store wiring calls DataStore.updateSensorData and the
sensor-history controller runs its throttled chart update. -/
def processSensorUpdate (now : Int) (st : StoreState) (ctrl : HistoryController)
    (e : UpdateEvent) (selectedDevices : List String) (viewHidden : Bool) :
    (StoreState × List NotifyKey) × HistoryController :=
  (updateSensorData now st e.sensor_id (storeRawValue e) e.timestamp,
   handleSensorUpdate ctrl e now selectedDevices viewHidden)

lemma isNaNb_false_iff (x : JSNum) : x.isNaNb = false ↔ x ≠ JSNum.nan := by
  cases x <;> simp [JSNum.isNaNb]

lemma mapGet_mapSet_self {α : Type} (k : String) (v : α) (m : List (String × α)) :
    mapGet k (mapSet k v m) = some v := by
  induction m with
  | nil => simp [mapGet, mapSet]
  | cons p rest ih =>
    by_cases h : p.1 = k
    · simp [mapGet, mapSet, h]
    · simp [mapGet, mapSet, h, ih]

/-- C1. The claim states that a fresh sensor with an absent lastValue is
classified offline; the code returns active there, so the claim as stated
is false: _calculateSensorStatus on a sensor with lastUpdate at time 0,
evaluated at now = 1000 (well within 300000 ms) and lastValue null, yields
active, not offline. -/
theorem statusDeriver_rule_counterexample :
    calculateSensorStatus 1000
        ⟨"s1", "humidity", "A", "active", none, some 0, []⟩ = "active" ∧
      ("active" : String) ≠ "offline" := by
  decide

/-- C1 (amended): status priority of DataStore._calculateSensorStatus.
An absent lastUpdate gives offline; a lastUpdate older than 300000 ms gives
offline; otherwise an absent lastValue gives active (not offline as the
claim stated). -/
theorem statusDeriver_rule_amended (now : Int) (s : Sensor) :
    (s.lastUpdate = none → calculateSensorStatus now s = "offline") ∧
    (∀ t : Int, s.lastUpdate = some t → now - t > 300000 →
      calculateSensorStatus now s = "offline") ∧
    (∀ t : Int, s.lastUpdate = some t → ¬(now - t > 300000) → s.lastValue = none →
      calculateSensorStatus now s = "active") := by
  refine ⟨fun h => ?_, fun t ht hgt => ?_, fun t ht hle hval => ?_⟩
  · simp [calculateSensorStatus, h]
  · simp [calculateSensorStatus, ht, hgt]
  · simp [calculateSensorStatus, ht, hle, hval]

/-- Witness for C1: the amended rule applied at a stale sensor and at a
fresh sensor with no value. -/
theorem statusDeriver_rule_witness :
    calculateSensorStatus 400000
        ⟨"s2", "humidity", "A", "normal", some (.finite 50), some 0, []⟩ = "offline" ∧
      calculateSensorStatus 1000
        ⟨"s1", "humidity", "A", "active", none, some 0, []⟩ = "active" :=
  ⟨(statusDeriver_rule_amended 400000
      ⟨"s2", "humidity", "A", "normal", some (.finite 50), some 0, []⟩).2.1 0 rfl
      (by decide),
   (statusDeriver_rule_amended 1000
      ⟨"s1", "humidity", "A", "active", none, some 0, []⟩).2.2 0 rfl
      (by decide) rfl⟩

/-- C4: API.getSensorStatus is total with exactly the three classes, a value
in a critical range is classified critical regardless of also lying in a
warning range, and a type absent from the threshold table gives normal. -/
theorem thresholdClassifier_total (value : JSNum) (sensorType : String) :
    (getSensorStatus value sensorType = "critical" ∨
      getSensorStatus value sensorType = "warning" ∨
      getSensorStatus value sensorType = "normal") ∧
    (∀ th : Thresholds, thresholdsFor sensorType = some th →
      inRanges value th.critical = true → inRanges value th.warning = true →
      getSensorStatus value sensorType = "critical") ∧
    (thresholdsFor sensorType = none → getSensorStatus value sensorType = "normal") := by
  rcases h : thresholdsFor sensorType with _ | th
  · refine ⟨Or.inr (Or.inr ?_), fun th2 hth _ _ => ?_, fun _ => ?_⟩
    · simp [getSensorStatus, h]
    · cases hth
    · simp [getSensorStatus, h]
  · refine ⟨?_, ?_, ?_⟩
    · by_cases hc : inRanges value th.critical
      · exact Or.inl (by simp [getSensorStatus, h, hc])
      · by_cases hw : inRanges value th.warning
        · exact Or.inr (Or.inl (by simp [getSensorStatus, h, hc, hw]))
        · exact Or.inr (Or.inr (by simp [getSensorStatus, h, hc, hw]))
    · intro th2 hth hc hw
      obtain rfl := Option.some.inj hth
      simp [getSensorStatus, h, hc]
    · intro hnone; cases hnone

/-- Witness for C4: humidity exactly 20 and vibration exactly 50 lie in both
a critical and a warning range and are classified critical. -/
theorem thresholdClassifier_total_witness :
    getSensorStatus (.finite 20) ("humidity") = "critical" ∧
      getSensorStatus (.finite 50) ("vibration") = "critical" :=
  ⟨(thresholdClassifier_total (.finite 20) ("humidity")).2.1 _ rfl
      (by decide) (by decide),
   (thresholdClassifier_total (.finite 50) ("vibration")).2.1 _ rfl
      (by decide) (by decide)⟩

/-- C8: DataStore.updateSensorData on an unregistered sensor id leaves the
whole store state unchanged and emits no notification. -/
theorem unknownSensor_noop (now : Int) (st : StoreState) (sensorId : String)
    (value : RawValue) (timestamp : Int)
    (h : mapGet sensorId st.sensors = none) :
    updateSensorData now st sensorId value timestamp = (st, []) := by
  unfold updateSensorData
  rw [h]

/-- Witness for C8: a reading for an id absent from a concrete store is
dropped without any state change or notification. -/
theorem unknownSensor_noop_witness :
    updateSensorData 0
        ⟨[("s1", ⟨"s1", "humidity", "A", "active", none, none, []⟩)], [], [], "connected"⟩
        ("s9") (.num (.finite 7)) 0 =
      (⟨[("s1", ⟨"s1", "humidity", "A", "active", none, none, []⟩)], [], [], "connected"⟩, []) :=
  unknownSensor_noop 0
    ⟨[("s1", ⟨"s1", "humidity", "A", "active", none, none, []⟩)], [], [], "connected"⟩
    ("s9") (.num (.finite 7)) 0 (by decide)

/-- C2. The claim states sanitization yields absent or a finite number; the
code keeps Infinity, which is a number and not NaN, so the claim as stated
is false: a raw Infinity is stored as Infinity, a present non-finite value,
both by the sanitizer and as lastValue of the updated sensor record. -/
theorem sanitize_finite_counterexample :
    sanitizeValue (RawValue.num JSNum.posInf) = some JSNum.posInf ∧
      JSNum.isFiniteB JSNum.posInf = false ∧
      (applySensorReading 0 ⟨"s1", "vibration", "A", "active", none, none, []⟩
          (RawValue.num JSNum.posInf) 5).lastValue = some JSNum.posInf := by
  decide

/-- C2 (amended): sanitization never yields NaN. Every present sanitized
value differs from NaN; numeric strings whose parse is not NaN are stored as
their parsed number; after updateSensorData the sensor's lastValue is never
NaN and any NaN reading in the buffer must already have been there. Raw
non-finite numbers such as Infinity are kept as is, contrary to the claim. -/
theorem sanitize_noNaN_amended (value : RawValue) :
    (∀ x : JSNum, sanitizeValue value = some x → x ≠ JSNum.nan) ∧
    (∀ s : String, value = RawValue.str s → (jsParseFloat s).isNaNb = false →
      sanitizeValue value = some (jsParseFloat s)) ∧
    (∀ now : Int, ∀ sensor : Sensor, ∀ ts : Int,
      (applySensorReading now sensor value ts).lastValue ≠ some JSNum.nan ∧
      (∀ r : Reading, r ∈ (applySensorReading now sensor value ts).readings →
        r.value = JSNum.nan → r ∈ sensor.readings)) := by
  have hmain : ∀ x : JSNum, sanitizeValue value = some x → x ≠ JSNum.nan := by
    intro x hx
    cases value with
    | nullV => cases hx
    | undefinedV => cases hx
    | boolV b => cases hx
    | str s =>
      simp only [sanitizeValue] at hx
      by_cases hp : (jsParseFloat s).isNaNb
      · rw [if_pos hp] at hx; cases hx
      · rw [if_neg hp] at hx
        obtain rfl := Option.some.inj hx
        exact (isNaNb_false_iff _).1 (Bool.eq_false_iff.2 hp)
    | num y =>
      simp only [sanitizeValue] at hx
      by_cases hy : y.isNaNb = false
      · rw [if_pos hy] at hx
        obtain rfl := Option.some.inj hx
        exact (isNaNb_false_iff _).1 hy
      · rw [if_neg hy] at hx; cases hx
  refine ⟨hmain, fun s hs hp => ?_, fun now sensor ts => ⟨?_, ?_⟩⟩
  · subst hs
    simp only [sanitizeValue]
    rw [if_neg (by simp [hp])]
  · show (applySensorReading now sensor value ts).lastValue ≠ some JSNum.nan
    have hlv : (applySensorReading now sensor value ts).lastValue = sanitizeValue value := rfl
    rw [hlv]
    intro hcon
    exact hmain JSNum.nan hcon rfl
  · intro r hr hnan
    have hr2 : r ∈ (let r1 :=
        match sanitizeValue value with
        | some v => sensor.readings ++ [⟨v, ts⟩]
        | none => sensor.readings
      if r1.length > 100 then jsSliceLast 100 r1 else r1) := hr
    simp only at hr2
    rcases hs : sanitizeValue value with _ | v <;> rw [hs] at hr2
    · by_cases hl : sensor.readings.length > 100
      · rw [if_pos hl] at hr2
        exact List.mem_of_mem_drop hr2
      · rw [if_neg hl] at hr2
        exact hr2
    · have hmem : r ∈ sensor.readings ++ [(⟨v, ts⟩ : Reading)] := by
        by_cases hl : (sensor.readings ++ [(⟨v, ts⟩ : Reading)]).length > 100
        · rw [if_pos hl] at hr2
          exact List.mem_of_mem_drop hr2
        · rw [if_neg hl] at hr2
          exact hr2
      rcases List.mem_append.1 hmem with hold | hnew
      · exact hold
      · exfalso
        have : r = (⟨v, ts⟩ : Reading) := List.mem_singleton.1 hnew
        subst this
        exact hmain v hs (by simpa using hnan)

/-- Witness for C2: the amended rule applied to the numeric string 42 and
to a plain number, discharging each hypothesis at those inputs. -/
theorem sanitize_noNaN_witness :
    sanitizeValue (RawValue.str ("42")) = some (jsParseFloat ("42")) ∧
      jsParseFloat ("42") ≠ JSNum.nan ∧
      (applySensorReading 0 ⟨"s1", "stress", "A", "active", none, none, []⟩
          (RawValue.num (.finite 7)) 3).lastValue ≠ some JSNum.nan :=
  ⟨(sanitize_noNaN_amended (RawValue.str ("42"))).2.1 ("42") rfl (by decide),
   (sanitize_noNaN_amended (RawValue.str ("42"))).1 (jsParseFloat ("42"))
     ((sanitize_noNaN_amended (RawValue.str ("42"))).2.1 ("42") rfl (by decide)),
   ((sanitize_noNaN_amended (RawValue.num (.finite 7))).2.2 0
     ⟨"s1", "stress", "A", "active", none, none, []⟩ 3).1⟩

lemma ackList_of_not_has (alarmId : String) (l : List Alarm)
    (h : hasAlarm alarmId l = false) : ackList alarmId l = l := by
  induction l with
  | nil => rfl
  | cons a rest ih =>
    simp only [hasAlarm, List.any_cons, Bool.or_eq_false_iff] at h
    have ha : ¬(a.id = alarmId) := by
      intro hcon; rw [hcon] at h; simp at h
    simp only [ackList, if_neg ha]
    rw [ih]
    simp only [hasAlarm]
    exact h.2

lemma ackList_idem (alarmId : String) (l : List Alarm) :
    ackList alarmId (ackList alarmId l) = ackList alarmId l := by
  induction l with
  | nil => rfl
  | cons a rest ih =>
    by_cases ha : a.id = alarmId
    · simp only [ackList, if_pos ha]
    · simp only [ackList, if_neg ha, ih]

lemma hasAlarm_ackList (alarmId : String) (l : List Alarm) :
    hasAlarm alarmId (ackList alarmId l) = hasAlarm alarmId l := by
  induction l with
  | nil => rfl
  | cons a rest ih =>
    simp only [hasAlarm] at ih
    by_cases ha : a.id = alarmId
    · simp [ackList, ha, hasAlarm]
    · simp [ackList, ha, hasAlarm, ih]

/-- C7: DataStore.acknowledgeAlarm is idempotent on store state, and is a
complete no-op (state and notifications) when no alarm carries the id. -/
theorem acknowledge_idempotent (st : StoreState) (alarmId : String) :
    (acknowledgeAlarm (acknowledgeAlarm st alarmId).1 alarmId).1 =
        (acknowledgeAlarm st alarmId).1 ∧
      (hasAlarm alarmId st.alarms = false →
        acknowledgeAlarm st alarmId = (st, [])) := by
  constructor
  · by_cases h : hasAlarm alarmId st.alarms
    · simp only [acknowledgeAlarm, if_pos h]
      have h2 : hasAlarm alarmId
          (({ st with alarms := ackList alarmId st.alarms } : StoreState).alarms) = true := by
        simpa [hasAlarm_ackList] using h
      simp only [if_pos h2]
      simp [ackList_idem]
    · have hfalse : hasAlarm alarmId st.alarms = false := Bool.eq_false_iff.2 h
      simp only [acknowledgeAlarm, if_neg h]
  · intro h
    simp only [acknowledgeAlarm, h]
    simp

/-- Witness for C7: acknowledging an id absent from a concrete store changes
nothing, and a second acknowledge of a present id is a no-op. -/
theorem acknowledge_idempotent_witness :
    acknowledgeAlarm
        ⟨[], [⟨"a1", "s1", "critical", "m", 0, false⟩], [], "connected"⟩ ("zz") =
      (⟨[], [⟨"a1", "s1", "critical", "m", 0, false⟩], [], "connected"⟩, []) ∧
    (acknowledgeAlarm
        (acknowledgeAlarm
          ⟨[], [⟨"a1", "s1", "critical", "m", 0, false⟩], [], "connected"⟩ ("a1")).1
        ("a1")).1 =
      (acknowledgeAlarm
        ⟨[], [⟨"a1", "s1", "critical", "m", 0, false⟩], [], "connected"⟩ ("a1")).1 :=
  ⟨(acknowledge_idempotent
      ⟨[], [⟨"a1", "s1", "critical", "m", 0, false⟩], [], "connected"⟩ ("zz")).2
      (by decide),
   (acknowledge_idempotent
      ⟨[], [⟨"a1", "s1", "critical", "m", 0, false⟩], [], "connected"⟩ ("a1")).1⟩

lemma take_append_take {α : Type} (n : Nat) (a b : List α) :
    (a ++ b.take n).take n = (a ++ b).take n := by
  rw [List.take_append_eq_append_take, List.take_append_eq_append_take,
    List.take_take, Nat.min_eq_left (Nat.sub_le n a.length)]

lemma addAlarm_alarms_eq (st : StoreState) (a : Alarm)
    (h : st.alarms.length ≤ 1000) :
    (addAlarm st a).1.alarms = (a :: st.alarms).take 1000 := by
  simp only [addAlarm]
  by_cases hl : (a :: st.alarms).length > 1000
  · rw [if_pos hl]
  · rw [if_neg hl]
    rw [List.take_all_of_le (by omega)]

/-- C6: any sequence of DataStore.addAlarm calls starting from a store whose
alarm list is within the cap leaves exactly the newest 1000 alarms, newest
first by arrival order, so the collection never exceeds 1000 entries and the
oldest-arrived alarms are the ones evicted. -/
theorem alarmCap_bound (st : StoreState) (h : st.alarms.length ≤ 1000)
    (as : List Alarm) :
    (addAlarms st as).alarms = (as.reverse ++ st.alarms).take 1000 ∧
      (addAlarms st as).alarms.length ≤ 1000 := by
  induction as generalizing st with
  | nil =>
    constructor
    · simp only [addAlarms, List.foldl_nil, List.reverse_nil, List.nil_append]
      rw [List.take_all_of_le h]
    · simpa [addAlarms] using h
  | cons a rest ih =>
    have hstep : (addAlarm st a).1.alarms = (a :: st.alarms).take 1000 :=
      addAlarm_alarms_eq st a h
    have hlen : (addAlarm st a).1.alarms.length ≤ 1000 := by
      rw [hstep]
      simpa using Nat.min_le_left 1000 (a :: st.alarms).length
    have hrec := ih (addAlarm st a).1 hlen
    have hfold : addAlarms st (a :: rest) = addAlarms (addAlarm st a).1 rest := by
      simp [addAlarms]
    constructor
    · rw [hfold, hrec.1, hstep, take_append_take]
      rw [List.reverse_cons, List.append_assoc]
      rfl
    · rw [hfold]
      exact hrec.2

/-- Witness for C6: 1001 addAlarm calls on an empty store leave exactly 1000
alarms. -/
theorem alarmCap_bound_witness :
    (addAlarms ⟨[], [], [], "disconnected"⟩
        ((List.range 1001).map
          (fun i => ⟨toString i, "s", "info", "m", 0, false⟩))).alarms.length = 1000 := by
  have h := alarmCap_bound ⟨[], [], [], "disconnected"⟩ (by decide)
    ((List.range 1001).map (fun i => ⟨toString i, "s", "info", "m", 0, false⟩))
  rw [h.1]
  simp [List.length_take]

lemma jsSliceLast_eq_rtake {α : Type} (n : Nat) (l : List α) :
    jsSliceLast n l = l.rtake n := rfl

lemma rtake_all_of_le {α : Type} {n : Nat} {l : List α} (h : l.length ≤ n) :
    l.rtake n = l := by
  simp only [List.rtake, Nat.sub_eq_zero_of_le h, List.drop_zero]

lemma length_rtake_le {α : Type} (n : Nat) (l : List α) :
    (l.rtake n).length ≤ n := by
  simp only [List.rtake, List.length_drop]
  omega

lemma reverse_rtake {α : Type} (n : Nat) (l : List α) :
    (l.rtake n).reverse = l.reverse.take n := by
  rw [List.rtake_eq_reverse_take_reverse, List.reverse_reverse]

lemma rtake_append_rtake {α : Type} (n : Nat) (xs ys : List α) :
    ((xs.rtake n) ++ ys).rtake n = (xs ++ ys).rtake n := by
  apply List.reverse_injective
  rw [reverse_rtake, reverse_rtake, List.reverse_append, List.reverse_append,
    reverse_rtake, take_append_take]

lemma acceptedEntries_cons (c : RawValue × Int) (cs : List (RawValue × Int)) :
    acceptedEntries (c :: cs) =
      (match sanitizeValue c.1 with
        | some v => [(⟨v, c.2⟩ : Reading)]
        | none => []) ++ acceptedEntries cs := by
  simp only [acceptedEntries, List.filterMap_cons]
  rcases sanitizeValue c.1 with _ | v <;> simp

lemma applySensorReading_readings_eq (now : Int) (s : Sensor) (v : RawValue)
    (t : Int) (h : s.readings.length ≤ 100) :
    (applySensorReading now s v t).readings =
      (s.readings ++ acceptedEntries [(v, t)]).rtake 100 := by
  show (let r1 :=
      match sanitizeValue v with
      | some x => s.readings ++ [⟨x, t⟩]
      | none => s.readings
    if r1.length > 100 then jsSliceLast 100 r1 else r1) = _
  rw [acceptedEntries_cons]
  simp only [acceptedEntries, List.filterMap_nil, List.append_nil]
  rcases hs : sanitizeValue v with _ | x
  · simp only
    rw [if_neg (by omega), List.append_nil, rtake_all_of_le h]
  · simp only
    by_cases hl : (s.readings ++ [(⟨x, t⟩ : Reading)]).length > 100
    · rw [if_pos hl, jsSliceLast_eq_rtake]
    · rw [if_neg hl, rtake_all_of_le (by omega)]

/-- C3: after any sequence of DataStore.updateSensorData calls on one sensor
whose readings buffer is within the cap, the buffer holds exactly the last
100 accepted (sanitized-present) readings in arrival order — so its length
never exceeds 100 and the oldest accepted entries are the ones evicted. -/
theorem seriesBuffer_cap (now : Int) (sensor : Sensor)
    (h : sensor.readings.length ≤ 100) (calls : List (RawValue × Int)) :
    (applySensorReadings now sensor calls).readings =
        (sensor.readings ++ acceptedEntries calls).rtake 100 ∧
      (applySensorReadings now sensor calls).readings.length ≤ 100 := by
  induction calls generalizing sensor with
  | nil =>
    constructor
    · simp only [applySensorReadings, List.foldl_nil, acceptedEntries,
        List.filterMap_nil, List.append_nil]
      rw [rtake_all_of_le h]
    · simpa [applySensorReadings] using h
  | cons c cs ih =>
    have hstep := applySensorReading_readings_eq now sensor c.1 c.2 h
    have hlen : (applySensorReading now sensor c.1 c.2).readings.length ≤ 100 := by
      rw [hstep]
      exact length_rtake_le 100 _
    have hrec := ih (applySensorReading now sensor c.1 c.2) hlen
    have hfold : applySensorReadings now sensor (c :: cs) =
        applySensorReadings now (applySensorReading now sensor c.1 c.2) cs := by
      simp [applySensorReadings]
    constructor
    · have hacc : acceptedEntries [(c.1, c.2)] ++ acceptedEntries cs =
          acceptedEntries (c :: cs) := by
        rw [acceptedEntries, acceptedEntries, acceptedEntries,
          ← List.filterMap_append]
        rfl
      rw [hfold, hrec.1, hstep, rtake_append_rtake, List.append_assoc, hacc]
    · rw [hfold]
      exact hrec.2

/-- Witness for C3: a concrete call sequence with one accepted and one
rejected reading on a fresh sensor leaves exactly the accepted entry. -/
theorem seriesBuffer_cap_witness :
    (applySensorReadings 0 ⟨"s1", "humidity", "A", "active", none, none, []⟩
        [(.num (.finite 1), 10), (.nullV, 11)]).readings =
      [(⟨.finite 1, 10⟩ : Reading)] :=
  ((seriesBuffer_cap 0 ⟨"s1", "humidity", "A", "active", none, none, []⟩
      (by decide) [(.num (.finite 1), 10), (.nullV, 11)]).1).trans (by decide)

lemma notifyGo_eq_map {α : Type} (cbs : List (α → Except String Unit)) (d : α) :
    notifyGo cbs d = cbs.map (fun cb => invokeCaught cb d) := by
  induction cbs with
  | nil => rfl
  | cons cb rest ih => simp [notifyGo, ih]

/-- C9: DataStore._notify delivers to every subscribed callback of the
category in insertion order — each invocation outcome appears, caught, in
the trace, so a throwing callback does not stop delivery to later ones —
and the subscriber bookkeeping is left untouched. -/
theorem notify_isolation {α : Type} (lm : ListenerMap α) (key : String) (d : α)
    (cbs : List (α → Except String Unit))
    (h : mapGet key lm.listeners = some cbs) :
    (notifyStore lm key d).1 = lm ∧
      (notifyStore lm key d).2 = cbs.map (fun cb => invokeCaught cb d) ∧
      (notifyStore lm key d).2.length = cbs.length := by
  unfold notifyStore
  rw [h]
  refine ⟨rfl, notifyGo_eq_map cbs d, ?_⟩
  show (notifyGo cbs d).length = cbs.length
  rw [notifyGo_eq_map]
  simp

/-- Witness for C9: with a first callback that throws and a second that
succeeds, both outcomes are delivered in order and the listener map is
unchanged. -/
theorem notify_isolation_witness :
    (notifyStore
        (⟨[("alarms", [fun _ => Except.error ("boom"), fun _ => Except.ok ()])]⟩ :
          ListenerMap Nat) ("alarms") 7).2 = [some ("boom"), none] ∧
      (notifyStore
        (⟨[("alarms", [fun _ => Except.error ("boom"), fun _ => Except.ok ()])]⟩ :
          ListenerMap Nat) ("alarms") 7).1 =
        ⟨[("alarms", [fun _ => Except.error ("boom"), fun _ => Except.ok ()])]⟩ :=
  ⟨((notify_isolation
      (⟨[("alarms", [fun _ => Except.error ("boom"), fun _ => Except.ok ()])]⟩ :
        ListenerMap Nat) ("alarms") 7
      [fun _ => Except.error ("boom"), fun _ => Except.ok ()] rfl).2.1).trans rfl,
   (notify_isolation
      (⟨[("alarms", [fun _ => Except.error ("boom"), fun _ => Except.ok ()])]⟩ :
        ListenerMap Nat) ("alarms") 7
      [fun _ => Except.error ("boom"), fun _ => Except.ok ()] rfl).1⟩

/-- C5. The claim states that a clock tick alone moves a stale sensor's
status as seen by store subscribers to offline; but no periodic timer in the
source touches the store or notifies its subscribers, so the claim as stated
is false: with a sensor last updated at time 0 and held status normal, the
tick at now = 400000 (staleness 400000 ms > 300000 ms) emits no store
notification and leaves the store-held status at normal. -/
theorem staleness_tick_counterexample :
    (periodicTick 400000
        ⟨⟨[("s1", ⟨"s1", "humidity", "A", "normal", some (.finite 50), some 0, []⟩)],
          [], [], "connected"⟩,
          [⟨"s1", "humidity", "normal", some (.finite 50), some 0⟩]⟩).2 = [] ∧
      (mapGet ("s1")
        (periodicTick 400000
          ⟨⟨[("s1", ⟨"s1", "humidity", "A", "normal", some (.finite 50), some 0, []⟩)],
            [], [], "connected"⟩,
            [⟨"s1", "humidity", "normal", some (.finite 50), some 0⟩]⟩).1.store.sensors).map
          Sensor.status = some ("normal") ∧
      ("normal" : String) ≠ "offline" := by
  decide

/-- C5 (amended): a periodic tick never changes the store or notifies its
subscribers; the staleness transition happens only in the dashboard
controller's private device list, whose sweep sets every device with a
last update older than 300000 ms to offline. -/
theorem staleness_tick_amended (now : Int) (sys : SystemState) :
    ((periodicTick now sys).1.store = sys.store ∧
      (periodicTick now sys).2 = [] ∧
      (periodicTick now sys).1.dashDevices =
        sys.dashDevices.map (sweepDevice now)) ∧
    (∀ d : Device, ∀ t : Int, d.lastUpdate = some t → now - t > 300000 →
      (sweepDevice now d).status = "offline") := by
  refine ⟨⟨rfl, rfl, rfl⟩, fun d t ht hgt => ?_⟩
  unfold sweepDevice
  rw [ht]
  show (if now - t > 300000 ∧ d.status ≠ "offline" then
      (⟨d.id, d.subtype, "offline", d.lastValue, some t⟩ : Device)
    else d).status = "offline"
  by_cases hoff : d.status = "offline"
  · rw [if_neg (by simp [hoff])]
    exact hoff
  · rw [if_pos ⟨hgt, hoff⟩]

/-- Witness for C5: the tick at now = 400000 leaves a concrete store intact
while the controller sweep marks the stale device offline. -/
theorem staleness_tick_witness :
    (sweepDevice 400000
        ⟨"s1", "humidity", "normal", some (.finite 50), some 0⟩).status = "offline" ∧
      (periodicTick 400000
        ⟨⟨[], [], [], "connected"⟩,
          [⟨"s1", "humidity", "normal", some (.finite 50), some 0⟩]⟩).1.store =
        ⟨[], [], [], "connected"⟩ :=
  ⟨(staleness_tick_amended 400000
      ⟨⟨[], [], [], "connected"⟩,
        [⟨"s1", "humidity", "normal", some (.finite 50), some 0⟩]⟩).2
      ⟨"s1", "humidity", "normal", some (.finite 50), some 0⟩ 0 rfl (by decide),
   (staleness_tick_amended 400000
      ⟨⟨[], [], [], "connected"⟩,
        [⟨"s1", "humidity", "normal", some (.finite 50), some 0⟩]⟩).1.1⟩

/-- C10: per-sensor render throttling of
SensorHistoryController.handleSensorUpdate. For an event that passes the
device filter with the view active: when it arrives less than 1000 ms after
the last applied chart update for its sensor id, the whole controller state
(charts included) is unchanged while the store update still happens
unchanged; when the gap is at least 1000 ms, the new point is appended to
the sensor's dataset, which is truncated to its 1000-point cap and
re-sorted by timestamp, and the applied time is recorded. -/
theorem chartThrottle_perSensor (now : Int) (st : StoreState)
    (ctrl : HistoryController) (e : UpdateEvent) (sel : List String)
    (hsel : (sel.isEmpty || sel.contains e.sensor_id) = true) :
    (now - (mapGet e.sensor_id ctrl.updateThrottle).getD 0 < throttleDelay →
      handleSensorUpdate ctrl e now sel false = ctrl ∧
      (processSensorUpdate now st ctrl e sel false).1 =
        updateSensorData now st e.sensor_id (storeRawValue e) e.timestamp) ∧
    (¬(now - (mapGet e.sensor_id ctrl.updateThrottle).getD 0 < throttleDelay) →
      ∀ ty : String, ∀ datasets : List Dataset, ∀ ds : Dataset,
        mapGet e.sensor_id ctrl.devices = some ty →
        mapGet ty ctrl.charts = some datasets →
        findDataset e.sensor_id datasets = some ds →
        mapGet ty (handleSensorUpdate ctrl e now sel false).charts =
          some (setDataset e.sensor_id
            ⟨ds.label, sortByX (truncTo1000 (ds.data ++ [⟨e.timestamp, eventY e⟩]))⟩
            datasets) ∧
        (handleSensorUpdate ctrl e now sel false).updateThrottle =
          mapSet e.sensor_id now ctrl.updateThrottle) := by
  constructor
  · intro hlt
    refine ⟨?_, rfl⟩
    simp [handleSensorUpdate, hsel, hlt]
  · intro hge ty datasets ds h1 h2 h3
    have hsel2 : sel = [] ∨ e.sensor_id ∈ sel := by
      rcases Bool.or_eq_true_iff.1 hsel with h | h
      · exact Or.inl (List.isEmpty_iff.1 h)
      · exact Or.inr (by simpa using h)
    have hcond : ¬(¬sel = [] ∧ e.sensor_id ∉ sel) := by
      rcases hsel2 with h | h
      · exact fun hc => hc.1 h
      · exact fun hc => hc.2 h
    constructor
    · simp [handleSensorUpdate, hsel, hge, h1, h2, h3, hcond, mapGet_mapSet_self]
    · simp [handleSensorUpdate, hsel, hge, h1, h2, h3, hcond]

/-- Witness for C10: an event 500 ms after the last applied update leaves a
concrete controller unchanged, and an event with a 2000 ms gap lands in the
sensor's dataset appended, truncated and sorted. -/
theorem chartThrottle_perSensor_witness :
    handleSensorUpdate
        ⟨[("s1", "humidity")], [("humidity", [⟨"s1", []⟩])], [("s1", 500)]⟩
        ⟨"s1", 600, some (.finite 5), none⟩ 1000 [] false =
      ⟨[("s1", "humidity")], [("humidity", [⟨"s1", []⟩])], [("s1", 500)]⟩ ∧
      mapGet ("humidity")
        (handleSensorUpdate
          ⟨[("s1", "humidity")], [("humidity", [⟨"s1", []⟩])], []⟩
          ⟨"s1", 50, some (.finite 5), none⟩ 2000 [] false).charts =
        some (setDataset ("s1")
          ⟨"s1", sortByX (truncTo1000
            ([] ++ [⟨50, eventY ⟨"s1", 50, some (.finite 5), none⟩⟩]))⟩
          [⟨"s1", []⟩]) :=
  ⟨((chartThrottle_perSensor 1000 ⟨[], [], [], "disconnected"⟩
      ⟨[("s1", "humidity")], [("humidity", [⟨"s1", []⟩])], [("s1", 500)]⟩
      ⟨"s1", 600, some (.finite 5), none⟩ [] rfl).1 (by decide)).1,
   ((chartThrottle_perSensor 2000 ⟨[], [], [], "disconnected"⟩
      ⟨[("s1", "humidity")], [("humidity", [⟨"s1", []⟩])], []⟩
      ⟨"s1", 50, some (.finite 5), none⟩ [] rfl).2 (by decide)
      ("humidity") [⟨"s1", []⟩] ⟨"s1", []⟩ rfl rfl rfl).1⟩
